import Mathlib

/-!
PicoRuby I2C port for ESP32 (ports/esp32/i2c.c)

A shallow embedding of the four functions of the port
(I2C_unit_name_to_unit_num, I2C_gpio_init, I2C_read_timeout_us,
I2C_write_timeout_us) and of the static table i2c_contexts.

The ESP-IDF I2C master driver is external to the port.  It is represented by
explicit state (the live master buses, the open device handles and the log of
the calls made to it); the results the driver reports are inputs of each
function.  Machine integers are Nat or Int; the 32-bit wrap-around is written
out where the C code can overflow.
-/

set_option linter.unusedVariables false

namespace I2C

/-! ## Constants and types of the two interfaces -/

/-- The success code of ESP-IDF (esp_err.h defines ESP_OK as 0). -/
def ESP_OK : Int := 0

/-- The enumerators of i2c_status_t used by the port.  They are declared in
include/i2c.h, which is not part of the port file, so their values are
parameters of the embedding. -/
structure i2c_status_t where
  ERROR_NONE : Int
  ERROR_INVALID_UNIT : Int
  deriving DecidableEq, Repr

/-- The enumerator values of PicoRuby's include/i2c.h, used for concrete runs. -/
def picoruby_status : i2c_status_t := ⟨0, -1⟩

/-- Width of uint32_t, size_t and int on the ESP32 (ILP32). -/
def UINT32_MOD : Nat := 2 ^ 32

/-- The largest int on the ESP32. -/
def INT_MAX : Nat := 2 ^ 31 - 1

/-- Conversion of a size_t to int, as done by "return len" in a function
returning int: the value is reduced modulo 2^32 into the two's-complement
range. -/
def int_of_size_t (len : Nat) : Int :=
  if len % UINT32_MOD < 2 ^ 31 then ((len % UINT32_MOD : Nat) : Int)
  else ((len % UINT32_MOD : Nat) : Int) - (UINT32_MOD : Int)

/-- One entry of the table: typedef struct i2c_bus_context_t.  A handle is a
pointer value, 0 being NULL. -/
structure i2c_bus_context_t where
  bus_handle : Nat
  initialized : Bool
  frequency : Nat
  deriving DecidableEq, Repr

/-- The table "static i2c_bus_context_t i2c_contexts[2]". -/
structure Contexts where
  c0 : i2c_bus_context_t
  c1 : i2c_bus_context_t
  deriving DecidableEq, Repr

/-- Read i2c_contexts[unit_num]; only used after unit_num was checked to be 0 or 1. -/
def Contexts.get (t : Contexts) (unit_num : Int) : i2c_bus_context_t :=
  if unit_num = 0 then t.c0 else t.c1

/-- Write i2c_contexts[unit_num]; only used after unit_num was checked to be 0 or 1. -/
def Contexts.set (t : Contexts) (unit_num : Int) (c : i2c_bus_context_t) : Contexts :=
  if unit_num = 0 then { t with c0 := c } else { t with c1 := c }

/-- The clock source selector; the port only uses I2C_CLK_SRC_DEFAULT. -/
inductive i2c_clock_source_t where
  | I2C_CLK_SRC_DEFAULT
  deriving DecidableEq, Repr

/-- The fields of i2c_master_bus_config_t that the port fills in. -/
structure i2c_master_bus_config_t where
  clk_source : i2c_clock_source_t
  i2c_port : Int
  scl_io_num : Int
  sda_io_num : Int
  glitch_ignore_cnt : Nat
  enable_internal_pullup : Bool
  deriving DecidableEq, Repr

/-- Address length selector of the driver. -/
inductive i2c_addr_bit_len_t where
  | I2C_ADDR_BIT_LEN_7
  | I2C_ADDR_BIT_LEN_10
  deriving DecidableEq, Repr

/-- The fields of i2c_device_config_t that the port fills in. -/
structure i2c_device_config_t where
  dev_addr_length : i2c_addr_bit_len_t
  device_address : Nat
  scl_speed_hz : Nat
  deriving DecidableEq, Repr

/-! ## The driver as explicit state -/

/-- A call made to the driver, with its arguments.  Buffers are represented
by their pointer value. -/
inductive DriverCall where
  | del_master_bus (bus : Nat)
  | new_master_bus (cfg : i2c_master_bus_config_t)
  | add_device (bus : Nat) (cfg : i2c_device_config_t)
  | receive (dev : Nat) (read_buffer : Nat) (read_size : Nat) (xfer_timeout_ms : Nat)
  | transmit (dev : Nat) (write_buffer : Nat) (write_size : Nat) (xfer_timeout_ms : Nat)
  | rm_device (dev : Nat)
  deriving DecidableEq, Repr

/-- The state of the program and of the driver: the table of the port, the
master buses the driver holds (one entry per successful creation that no
deletion has ended), the device handles it holds open (one entry per successful
add-device that no remove-device has ended), and the log of the calls made to
the driver, oldest first. -/
structure State where
  i2c_contexts : Contexts
  buses : List Nat
  devices : List Nat
  trace : List DriverCall
  deriving DecidableEq, Repr

/-- The state at program start: the table is zero-initialised ("= {0}"), the
driver owns no bus and no device and has not been called. -/
def initial : State :=
  { i2c_contexts := ⟨⟨0, false, 0⟩, ⟨0, false, 0⟩⟩, buses := [], devices := [], trace := [] }

/-- What the driver reports for the bus creation of one I2C_gpio_init call:
the error code, the handle it stores on success, and whether it also
overwrites the handle slot when it fails. -/
structure BusOutcome where
  err : Int
  handle : Nat
  stores_on_error : Bool
  deriving DecidableEq, Repr

/-- What the driver reports during one read or write call: the error code of
add-device, the device handle it stores on success, and the error code of the
transfer. -/
structure XferOutcome where
  add_err : Int
  dev_handle : Nat
  xfer_err : Int
  deriving DecidableEq, Repr

/-- Driver call i2c_del_master_bus: the bus stops being live. -/
def i2c_del_master_bus (s : State) (bus : Nat) : State :=
  { s with buses := s.buses.erase bus, trace := s.trace ++ [DriverCall.del_master_bus bus] }

/-- Driver call i2c_new_master_bus: returns the error code and the value
stored through the handle pointer, if any.  On success the new bus is live. -/
def i2c_new_master_bus (s : State) (cfg : i2c_master_bus_config_t) (o : BusOutcome) :
    Int × Option Nat × State :=
  let s1 := { s with trace := s.trace ++ [DriverCall.new_master_bus cfg] }
  if o.err = ESP_OK then (o.err, some o.handle, { s1 with buses := o.handle :: s1.buses })
  else (o.err, if o.stores_on_error then some o.handle else none, s1)

/-- Driver call i2c_master_bus_add_device: returns the error code and the
device handle.  On success the device handle is open. -/
def i2c_master_bus_add_device (s : State) (bus : Nat) (cfg : i2c_device_config_t)
    (o : XferOutcome) : Int × Nat × State :=
  let s1 := { s with trace := s.trace ++ [DriverCall.add_device bus cfg] }
  if o.add_err = ESP_OK then (o.add_err, o.dev_handle, { s1 with devices := o.dev_handle :: s1.devices })
  else (o.add_err, o.dev_handle, s1)

/-- Driver call i2c_master_receive. -/
def i2c_master_receive (s : State) (dev read_buffer read_size xfer_timeout_ms : Nat)
    (o : XferOutcome) : Int × State :=
  (o.xfer_err,
   { s with trace := s.trace ++ [DriverCall.receive dev read_buffer read_size xfer_timeout_ms] })

/-- Driver call i2c_master_transmit. -/
def i2c_master_transmit (s : State) (dev write_buffer write_size xfer_timeout_ms : Nat)
    (o : XferOutcome) : Int × State :=
  (o.xfer_err,
   { s with trace := s.trace ++ [DriverCall.transmit dev write_buffer write_size xfer_timeout_ms] })

/-- Driver call i2c_master_bus_rm_device: the device handle stops being open. -/
def i2c_master_bus_rm_device (s : State) (dev : Nat) : State :=
  { s with devices := s.devices.erase dev, trace := s.trace ++ [DriverCall.rm_device dev] }

/-! ## The port -/

/-- C strcmp on two character buffers; the end of a list stands for the
terminating NUL, and a NUL inside a list also ends the string. -/
def strcmp : List Char → List Char → Int
  | [], [] => 0
  | [], b :: _ => - (b.toNat : Int)
  | a :: _, [] => (a.toNat : Int)
  | a :: as, b :: bs =>
    if a = b then (if a.toNat = 0 then 0 else strcmp as bs)
    else (a.toNat : Int) - (b.toNat : Int)

/-- The C string held in a character buffer: the characters before the first NUL. -/
def cstr (p : List Char) : List Char := p.takeWhile (fun c => decide (c.toNat ≠ 0))

/-- The literal "I2C0". -/
def lit_I2C0 : List Char := ['I', '2', 'C', '0']
/-- The literal "ESP32_I2C0". -/
def lit_ESP32_I2C0 : List Char := ['E', 'S', 'P', '3', '2', '_', 'I', '2', 'C', '0']
/-- The literal "I2C1". -/
def lit_I2C1 : List Char := ['I', '2', 'C', '1']
/-- The literal "ESP32_I2C1". -/
def lit_ESP32_I2C1 : List Char := ['E', 'S', 'P', '3', '2', '_', 'I', '2', 'C', '1']

/-- Source lines 30-38. -/
def I2C_unit_name_to_unit_num (K : i2c_status_t) (unit_name : List Char) : Int :=
  if strcmp unit_name lit_I2C0 = 0 ∨ strcmp unit_name lit_ESP32_I2C0 = 0 then 0
  else if strcmp unit_name lit_I2C1 = 0 ∨ strcmp unit_name lit_ESP32_I2C1 = 0 then 1
  else K.ERROR_INVALID_UNIT

/-- Source lines 44-82.  Returns the status and the state after the call. -/
def I2C_gpio_init (K : i2c_status_t) (s : State) (unit_num : Int) (frequency : Nat)
    (sda_pin scl_pin : Int) (o : BusOutcome) : Int × State :=
  if unit_num < 0 ∨ unit_num ≥ 2 then (K.ERROR_INVALID_UNIT, s)
  else
    let s1 : State :=
      if (s.i2c_contexts.get unit_num).initialized then
        let sd := i2c_del_master_bus s (s.i2c_contexts.get unit_num).bus_handle
        let c := sd.i2c_contexts.get unit_num
        { sd with i2c_contexts := sd.i2c_contexts.set unit_num { c with initialized := false } }
      else s
    let i2c_mst_config : i2c_master_bus_config_t :=
      { clk_source := i2c_clock_source_t.I2C_CLK_SRC_DEFAULT
        i2c_port := unit_num
        scl_io_num := scl_pin
        sda_io_num := sda_pin
        glitch_ignore_cnt := 7
        enable_internal_pullup := true }
    let r := i2c_new_master_bus s1 i2c_mst_config o
    let err := r.1
    let s2 : State :=
      match r.2.1 with
      | some h =>
        let c := r.2.2.i2c_contexts.get unit_num
        { r.2.2 with i2c_contexts := r.2.2.i2c_contexts.set unit_num { c with bus_handle := h } }
      | none => r.2.2
    if err ≠ ESP_OK then (K.ERROR_INVALID_UNIT, s2)
    else
      let c := s2.i2c_contexts.get unit_num
      (K.ERROR_NONE,
       { s2 with i2c_contexts :=
           s2.i2c_contexts.set unit_num { c with initialized := true, frequency := frequency } })

/-- Source lines 111-114 and 157-160: microseconds to milliseconds in
uint32_t arithmetic, at least 10. -/
def timeout_ms_of_us (timeout_us : Nat) : Nat :=
  let timeout_ms := (timeout_us + 999) % UINT32_MOD / 1000
  if timeout_ms < 10 then 10 else timeout_ms

/-- Source lines 88-128.  Returns the int result and the state after the call. -/
def I2C_read_timeout_us (K : i2c_status_t) (s : State) (unit_num : Int) (addr : Nat)
    (dst : Nat) (len : Nat) (nostop : Bool) (timeout_us : Nat) (o : XferOutcome) : Int × State :=
  if unit_num < 0 ∨ unit_num ≥ 2 ∨ (s.i2c_contexts.get unit_num).initialized = false then
    (K.ERROR_INVALID_UNIT, s)
  else
    let dev_cfg : i2c_device_config_t :=
      { dev_addr_length := i2c_addr_bit_len_t.I2C_ADDR_BIT_LEN_7
        device_address := addr
        scl_speed_hz := (s.i2c_contexts.get unit_num).frequency }
    let a := i2c_master_bus_add_device s (s.i2c_contexts.get unit_num).bus_handle dev_cfg o
    if a.1 ≠ ESP_OK then (-1, a.2.2)
    else
      let dev_handle := a.2.1
      let timeout_ms := timeout_ms_of_us timeout_us
      let x := i2c_master_receive a.2.2 dev_handle dst len timeout_ms o
      let s3 := i2c_master_bus_rm_device x.2 dev_handle
      if x.1 ≠ ESP_OK then (-1, s3)
      else (int_of_size_t len, s3)

/-- Source lines 134-174.  Returns the int result and the state after the call. -/
def I2C_write_timeout_us (K : i2c_status_t) (s : State) (unit_num : Int) (addr : Nat)
    (src : Nat) (len : Nat) (nostop : Bool) (timeout_us : Nat) (o : XferOutcome) : Int × State :=
  if unit_num < 0 ∨ unit_num ≥ 2 ∨ (s.i2c_contexts.get unit_num).initialized = false then
    (K.ERROR_INVALID_UNIT, s)
  else
    let dev_cfg : i2c_device_config_t :=
      { dev_addr_length := i2c_addr_bit_len_t.I2C_ADDR_BIT_LEN_7
        device_address := addr
        scl_speed_hz := (s.i2c_contexts.get unit_num).frequency }
    let a := i2c_master_bus_add_device s (s.i2c_contexts.get unit_num).bus_handle dev_cfg o
    if a.1 ≠ ESP_OK then (-1, a.2.2)
    else
      let dev_handle := a.2.1
      let timeout_ms := timeout_ms_of_us timeout_us
      let x := i2c_master_transmit a.2.2 dev_handle src len timeout_ms o
      let s3 := i2c_master_bus_rm_device x.2 dev_handle
      if x.1 ≠ ESP_OK then (-1, s3)
      else (int_of_size_t len, s3)

/-! ## Sequences of calls -/

/-- One call of the port by the embedding runtime, together with what the
driver reports during it. -/
inductive Call where
  | gpio_init (unit_num : Int) (frequency : Nat) (sda_pin scl_pin : Int) (o : BusOutcome)
  | read (unit_num : Int) (addr dst len : Nat) (nostop : Bool) (timeout_us : Nat) (o : XferOutcome)
  | write (unit_num : Int) (addr src len : Nat) (nostop : Bool) (timeout_us : Nat) (o : XferOutcome)
  deriving DecidableEq, Repr

/-- The state after one call. -/
def step (K : i2c_status_t) (s : State) : Call → State
  | Call.gpio_init u f sda scl o => (I2C_gpio_init K s u f sda scl o).2
  | Call.read u addr dst len nostop t o => (I2C_read_timeout_us K s u addr dst len nostop t o).2
  | Call.write u addr src len nostop t o => (I2C_write_timeout_us K s u addr src len nostop t o).2

/-- The state after a sequence of calls. -/
def run (K : i2c_status_t) (s : State) (cs : List Call) : State :=
  cs.foldl (step K) s

/-- A call is an I2C_gpio_init on the given unit. -/
def Call.isInitOf (u : Int) : Call → Bool
  | Call.gpio_init v _ _ _ _ => decide (v = u)
  | _ => false

/-- The device configuration built by a read or write call. -/
def dev_cfg_of (s : State) (unit_num : Int) (addr : Nat) : i2c_device_config_t :=
  { dev_addr_length := i2c_addr_bit_len_t.I2C_ADDR_BIT_LEN_7
    device_address := addr
    scl_speed_hz := (s.i2c_contexts.get unit_num).frequency }

/-- The bus configuration built by I2C_gpio_init. -/
def bus_cfg_of (unit_num sda_pin scl_pin : Int) : i2c_master_bus_config_t :=
  { clk_source := i2c_clock_source_t.I2C_CLK_SRC_DEFAULT
    i2c_port := unit_num
    scl_io_num := scl_pin
    sda_io_num := sda_pin
    glitch_ignore_cnt := 7
    enable_internal_pullup := true }

/-- The state after an I2C_gpio_init call on unit 0 or 1, written out field
by field; gpio_init_valid proves that the function computes it. -/
def gpio_init_result (s : State) (unit_num : Int) (frequency : Nat) (sda_pin scl_pin : Int)
    (o : BusOutcome) : State :=
  let c := s.i2c_contexts.get unit_num
  { i2c_contexts := s.i2c_contexts.set unit_num
      (if o.err = ESP_OK then ⟨o.handle, true, frequency⟩
       else ⟨if o.stores_on_error then o.handle else c.bus_handle, false, c.frequency⟩)
    buses := (if o.err = ESP_OK then [o.handle] else []) ++
      (if c.initialized then s.buses.erase c.bus_handle else s.buses)
    devices := s.devices
    trace := s.trace ++ (if c.initialized then [DriverCall.del_master_bus c.bus_handle] else []) ++
      [DriverCall.new_master_bus (bus_cfg_of unit_num sda_pin scl_pin)] }

/-- A state used for concrete runs: unit 0 was initialised at 100 kHz on pins
21 and 22 and the driver returned bus handle 11; unit 1 was never initialised. -/
def demo_state : State :=
  (I2C_gpio_init picoruby_status initial 0 100000 21 22 ⟨0, 11, false⟩).2

/-- The number of initialized units whose stored bus handle is h. -/
def uses (t : Contexts) (h : Nat) : Nat :=
  (if t.c0.initialized = true ∧ t.c0.bus_handle = h then 1 else 0) +
  (if t.c1.initialized = true ∧ t.c1.bus_handle = h then 1 else 0)

/-- Every handle is live at least as many times as initialized units store it;
the list of live buses counts one entry per successful creation not yet ended
by a deletion. -/
def Inv (s : State) : Prop := ∀ h, uses s.i2c_contexts h ≤ s.buses.count h

/-- The bus handles that a list of driver calls passes to the driver. -/
def bus_handles_passed : List DriverCall → List Nat
  | [] => []
  | DriverCall.del_master_bus bus :: r => bus :: bus_handles_passed r
  | DriverCall.add_device bus _ :: r => bus :: bus_handles_passed r
  | _ :: r => bus_handles_passed r

/-- Calls used for concrete runs, made after unit 0 was initialised: unit 1 is
initialised at 400 kHz (bus handle 12), unit 0 is read once, and an
initialisation of the non-existent unit 5 is attempted. -/
def demo_calls : List Call :=
  [Call.gpio_init 1 400000 4 5 ⟨0, 12, false⟩,
   Call.read 0 80 4096 4 false 1000 ⟨0, 7, 0⟩,
   Call.gpio_init 5 400000 4 5 ⟨0, 13, false⟩]

/-! ## Unit names -/

/-- Two characters with the same code are the same character. -/
theorem char_eq_of_toNat_eq (a b : Char) (h : a.toNat = b.toNat) : a = b := by
  apply Char.ext
  apply UInt32.ext
  exact h

/-- For a second argument free of NUL, strcmp returns 0 exactly when the C
string in the first buffer is the second argument. -/
theorem strcmp_eq_zero_iff (a b : List Char) (hb : ∀ c ∈ b, c.toNat ≠ 0) :
    strcmp a b = 0 ↔ cstr a = b := by
  induction a generalizing b with
  | nil =>
    cases b with
    | nil => simp [strcmp, cstr]
    | cons y ys =>
      have hy : y.toNat ≠ 0 := hb y (List.mem_cons_self y ys)
      simp [strcmp, cstr]
      try omega
  | cons x xs ih =>
    cases b with
    | nil =>
      by_cases hx : x.toNat = 0
      · simp [strcmp, cstr, List.takeWhile, hx]
      · simp [strcmp, cstr, List.takeWhile, hx]
        try omega
    | cons y ys =>
      have hy : y.toNat ≠ 0 := hb y (List.mem_cons_self y ys)
      have hys : ∀ c ∈ ys, c.toNat ≠ 0 := fun c hc => hb c (List.mem_cons_of_mem y hc)
      by_cases hxy : x = y
      · subst hxy
        have := ih ys hys
        simp only [cstr] at this
        simp [strcmp, cstr, List.takeWhile, hy, this]
      · have hne : x.toNat ≠ y.toNat := fun h => hxy (char_eq_of_toNat_eq x y h)
        have h1 : strcmp (x :: xs) (y :: ys) = (x.toNat : Int) - (y.toNat : Int) := by
          simp [strcmp, hxy]
        rw [h1]
        constructor
        · intro h; exfalso; omega
        · intro h
          exfalso
          by_cases hx : x.toNat = 0
          · simp [cstr, List.takeWhile, hx] at h
          · simp [cstr, List.takeWhile, hx] at h
            exact hxy h.1

/-- C1. I2C_unit_name_to_unit_num maps unit names exactly: whenever
ERROR_INVALID_UNIT is neither 0 nor 1, for every character buffer the result
is 0 exactly when the C string in it is "I2C0" or "ESP32_I2C0", it is 1 exactly
when that string is "I2C1" or "ESP32_I2C1", and for every other string it is
ERROR_INVALID_UNIT. -/
theorem I2C_unit_name_to_unit_num_exact (K : i2c_status_t)
    (h0 : K.ERROR_INVALID_UNIT ≠ 0) (h1 : K.ERROR_INVALID_UNIT ≠ 1) (unit_name : List Char) :
    (I2C_unit_name_to_unit_num K unit_name = 0 ↔
        cstr unit_name = lit_I2C0 ∨ cstr unit_name = lit_ESP32_I2C0) ∧
    (I2C_unit_name_to_unit_num K unit_name = 1 ↔
        cstr unit_name = lit_I2C1 ∨ cstr unit_name = lit_ESP32_I2C1) ∧
    (¬ (cstr unit_name = lit_I2C0 ∨ cstr unit_name = lit_ESP32_I2C0 ∨
        cstr unit_name = lit_I2C1 ∨ cstr unit_name = lit_ESP32_I2C1) →
      I2C_unit_name_to_unit_num K unit_name = K.ERROR_INVALID_UNIT) := by
  have e1 : strcmp unit_name lit_I2C0 = 0 ↔ cstr unit_name = lit_I2C0 :=
    strcmp_eq_zero_iff _ _ (by decide)
  have e2 : strcmp unit_name lit_ESP32_I2C0 = 0 ↔ cstr unit_name = lit_ESP32_I2C0 :=
    strcmp_eq_zero_iff _ _ (by decide)
  have e3 : strcmp unit_name lit_I2C1 = 0 ↔ cstr unit_name = lit_I2C1 :=
    strcmp_eq_zero_iff _ _ (by decide)
  have e4 : strcmp unit_name lit_ESP32_I2C1 = 0 ↔ cstr unit_name = lit_ESP32_I2C1 :=
    strcmp_eq_zero_iff _ _ (by decide)
  have d1 : lit_I2C0 ≠ lit_I2C1 := by decide
  have d2 : lit_I2C0 ≠ lit_ESP32_I2C1 := by decide
  have d3 : lit_ESP32_I2C0 ≠ lit_I2C1 := by decide
  have d4 : lit_ESP32_I2C0 ≠ lit_ESP32_I2C1 := by decide
  have k1 := or_congr e1 e2
  have k2 := or_congr e3 e4
  have z01 : ¬ ((0 : Int) = 1) := by norm_num
  have z10 : ¬ ((1 : Int) = 0) := by norm_num
  unfold I2C_unit_name_to_unit_num
  by_cases c1 : strcmp unit_name lit_I2C0 = 0 ∨ strcmp unit_name lit_ESP32_I2C0 = 0
  · have c1s := k1.mp c1
    have n2 : ¬ (cstr unit_name = lit_I2C1 ∨ cstr unit_name = lit_ESP32_I2C1) := by
      rcases c1s with c | c
      · rw [c]; exact fun h => h.elim d1 d2
      · rw [c]; exact fun h => h.elim d3 d4
    rw [if_pos c1]
    refine ⟨⟨fun _ => c1s, fun _ => rfl⟩, ⟨fun h => absurd h z01, fun h => absurd h n2⟩, ?_⟩
    intro h
    exact absurd (c1s.elim (fun c => Or.inl c) (fun c => Or.inr (Or.inl c))) h
  · have c1s : ¬ (cstr unit_name = lit_I2C0 ∨ cstr unit_name = lit_ESP32_I2C0) :=
      fun h => c1 (k1.mpr h)
    by_cases c2 : strcmp unit_name lit_I2C1 = 0 ∨ strcmp unit_name lit_ESP32_I2C1 = 0
    · have c2s := k2.mp c2
      rw [if_neg c1, if_pos c2]
      refine ⟨⟨fun h => absurd h z10, fun h => absurd h c1s⟩, ⟨fun _ => c2s, fun _ => rfl⟩, ?_⟩
      intro h
      exact absurd
        (c2s.elim (fun c => Or.inr (Or.inr (Or.inl c))) (fun c => Or.inr (Or.inr (Or.inr c)))) h
    · have c2s : ¬ (cstr unit_name = lit_I2C1 ∨ cstr unit_name = lit_ESP32_I2C1) :=
        fun h => c2 (k2.mpr h)
      rw [if_neg c1, if_neg c2]
      exact ⟨⟨fun h => absurd h h0, fun h => absurd h c1s⟩,
        ⟨fun h => absurd h h1, fun h => absurd h c2s⟩, fun _ => rfl⟩

/-- The mapping at four concrete buffers: an exact name, the empty string, a
lower-case name and a name with a trailing character. -/
theorem I2C_unit_name_to_unit_num_exact_witness :
    ((I2C_unit_name_to_unit_num picoruby_status ['I', '2', 'C', '1'] = 0 ↔
        cstr ['I', '2', 'C', '1'] = lit_I2C0 ∨ cstr ['I', '2', 'C', '1'] = lit_ESP32_I2C0) ∧
     (I2C_unit_name_to_unit_num picoruby_status ['I', '2', 'C', '1'] = 1 ↔
        cstr ['I', '2', 'C', '1'] = lit_I2C1 ∨ cstr ['I', '2', 'C', '1'] = lit_ESP32_I2C1) ∧
     (¬ (cstr ['I', '2', 'C', '1'] = lit_I2C0 ∨ cstr ['I', '2', 'C', '1'] = lit_ESP32_I2C0 ∨
        cstr ['I', '2', 'C', '1'] = lit_I2C1 ∨ cstr ['I', '2', 'C', '1'] = lit_ESP32_I2C1) →
      I2C_unit_name_to_unit_num picoruby_status ['I', '2', 'C', '1'] =
        picoruby_status.ERROR_INVALID_UNIT)) ∧
    I2C_unit_name_to_unit_num picoruby_status ['I', '2', 'C', '1'] = 1 ∧
    I2C_unit_name_to_unit_num picoruby_status [] = -1 ∧
    I2C_unit_name_to_unit_num picoruby_status ['i', '2', 'c', '0'] = -1 ∧
    I2C_unit_name_to_unit_num picoruby_status ['I', '2', 'C', '0', '0'] = -1 :=
  ⟨I2C_unit_name_to_unit_num_exact picoruby_status (by decide) (by decide) ['I', '2', 'C', '1'],
   by decide, by decide, by decide, by decide⟩

/-! ## The paths through the three stateful functions -/

/-- The unit check of the port rejects exactly the unit numbers other than 0 and 1. -/
theorem unit_check_iff (unit_num : Int) :
    (unit_num < 0 ∨ unit_num ≥ 2) ↔ ¬ (unit_num = 0 ∨ unit_num = 1) := by
  omega

/-- Read: the rejecting path. -/
theorem read_rejected (K : i2c_status_t) (s : State) (unit_num : Int)
    (addr dst len : Nat) (nostop : Bool) (timeout_us : Nat) (o : XferOutcome)
    (h : unit_num < 0 ∨ unit_num ≥ 2 ∨ (s.i2c_contexts.get unit_num).initialized = false) :
    I2C_read_timeout_us K s unit_num addr dst len nostop timeout_us o =
      (K.ERROR_INVALID_UNIT, s) := by
  unfold I2C_read_timeout_us
  rw [if_pos h]

/-- Write: the rejecting path. -/
theorem write_rejected (K : i2c_status_t) (s : State) (unit_num : Int)
    (addr src len : Nat) (nostop : Bool) (timeout_us : Nat) (o : XferOutcome)
    (h : unit_num < 0 ∨ unit_num ≥ 2 ∨ (s.i2c_contexts.get unit_num).initialized = false) :
    I2C_write_timeout_us K s unit_num addr src len nostop timeout_us o =
      (K.ERROR_INVALID_UNIT, s) := by
  unfold I2C_write_timeout_us
  rw [if_pos h]

/-- Read: the path where add-device fails. -/
theorem read_add_failed (K : i2c_status_t) (s : State) (unit_num : Int)
    (addr dst len : Nat) (nostop : Bool) (timeout_us : Nat) (o : XferOutcome)
    (hu : unit_num = 0 ∨ unit_num = 1)
    (hi : (s.i2c_contexts.get unit_num).initialized = true) (ha : o.add_err ≠ ESP_OK) :
    I2C_read_timeout_us K s unit_num addr dst len nostop timeout_us o =
      (-1, { s with trace := s.trace ++
          [DriverCall.add_device (s.i2c_contexts.get unit_num).bus_handle
            (dev_cfg_of s unit_num addr)] }) := by
  have hn : ¬ (unit_num < 0 ∨ unit_num ≥ 2 ∨
      (s.i2c_contexts.get unit_num).initialized = false) := by
    rw [hi]; simp; omega
  unfold I2C_read_timeout_us
  rw [if_neg hn]
  simp [i2c_master_bus_add_device, ha, dev_cfg_of]

/-- Write: the path where add-device fails. -/
theorem write_add_failed (K : i2c_status_t) (s : State) (unit_num : Int)
    (addr src len : Nat) (nostop : Bool) (timeout_us : Nat) (o : XferOutcome)
    (hu : unit_num = 0 ∨ unit_num = 1)
    (hi : (s.i2c_contexts.get unit_num).initialized = true) (ha : o.add_err ≠ ESP_OK) :
    I2C_write_timeout_us K s unit_num addr src len nostop timeout_us o =
      (-1, { s with trace := s.trace ++
          [DriverCall.add_device (s.i2c_contexts.get unit_num).bus_handle
            (dev_cfg_of s unit_num addr)] }) := by
  have hn : ¬ (unit_num < 0 ∨ unit_num ≥ 2 ∨
      (s.i2c_contexts.get unit_num).initialized = false) := by
    rw [hi]; simp; omega
  unfold I2C_write_timeout_us
  rw [if_neg hn]
  simp [i2c_master_bus_add_device, ha, dev_cfg_of]

/-- Read: the path where add-device succeeds. -/
theorem read_added (K : i2c_status_t) (s : State) (unit_num : Int)
    (addr dst len : Nat) (nostop : Bool) (timeout_us : Nat) (o : XferOutcome)
    (hu : unit_num = 0 ∨ unit_num = 1)
    (hi : (s.i2c_contexts.get unit_num).initialized = true) (ha : o.add_err = ESP_OK) :
    I2C_read_timeout_us K s unit_num addr dst len nostop timeout_us o =
      (if o.xfer_err ≠ ESP_OK then -1 else int_of_size_t len,
       { s with trace := s.trace ++
          [DriverCall.add_device (s.i2c_contexts.get unit_num).bus_handle
            (dev_cfg_of s unit_num addr),
           DriverCall.receive o.dev_handle dst len (timeout_ms_of_us timeout_us),
           DriverCall.rm_device o.dev_handle] }) := by
  have hn : ¬ (unit_num < 0 ∨ unit_num ≥ 2 ∨
      (s.i2c_contexts.get unit_num).initialized = false) := by
    rw [hi]; simp; omega
  unfold I2C_read_timeout_us
  rw [if_neg hn]
  by_cases hx : o.xfer_err = ESP_OK <;>
    simp [i2c_master_bus_add_device, i2c_master_receive, i2c_master_bus_rm_device, ha, hx,
      dev_cfg_of]

/-- Write: the path where add-device succeeds. -/
theorem write_added (K : i2c_status_t) (s : State) (unit_num : Int)
    (addr src len : Nat) (nostop : Bool) (timeout_us : Nat) (o : XferOutcome)
    (hu : unit_num = 0 ∨ unit_num = 1)
    (hi : (s.i2c_contexts.get unit_num).initialized = true) (ha : o.add_err = ESP_OK) :
    I2C_write_timeout_us K s unit_num addr src len nostop timeout_us o =
      (if o.xfer_err ≠ ESP_OK then -1 else int_of_size_t len,
       { s with trace := s.trace ++
          [DriverCall.add_device (s.i2c_contexts.get unit_num).bus_handle
            (dev_cfg_of s unit_num addr),
           DriverCall.transmit o.dev_handle src len (timeout_ms_of_us timeout_us),
           DriverCall.rm_device o.dev_handle] }) := by
  have hn : ¬ (unit_num < 0 ∨ unit_num ≥ 2 ∨
      (s.i2c_contexts.get unit_num).initialized = false) := by
    rw [hi]; simp; omega
  unfold I2C_write_timeout_us
  rw [if_neg hn]
  by_cases hx : o.xfer_err = ESP_OK <;>
    simp [i2c_master_bus_add_device, i2c_master_transmit, i2c_master_bus_rm_device, ha, hx,
      dev_cfg_of]

/-- Init: the rejecting path. -/
theorem gpio_init_rejected (K : i2c_status_t) (s : State) (unit_num : Int) (frequency : Nat)
    (sda_pin scl_pin : Int) (o : BusOutcome) (h : ¬ (unit_num = 0 ∨ unit_num = 1)) :
    I2C_gpio_init K s unit_num frequency sda_pin scl_pin o = (K.ERROR_INVALID_UNIT, s) := by
  have hc : unit_num < 0 ∨ unit_num ≥ 2 := (unit_check_iff unit_num).mpr h
  unfold I2C_gpio_init
  rw [if_pos hc]

/-- Init: the path through the driver. -/
theorem gpio_init_valid (K : i2c_status_t) (s : State) (unit_num : Int) (frequency : Nat)
    (sda_pin scl_pin : Int) (o : BusOutcome) (hu : unit_num = 0 ∨ unit_num = 1) :
    I2C_gpio_init K s unit_num frequency sda_pin scl_pin o =
      (if o.err ≠ ESP_OK then K.ERROR_INVALID_UNIT else K.ERROR_NONE,
       gpio_init_result s unit_num frequency sda_pin scl_pin o) := by
  have hc : ¬ (unit_num < 0 ∨ unit_num ≥ 2) := by omega
  unfold I2C_gpio_init
  rw [if_neg hc]
  obtain ⟨⟨⟨b0, i0, f0⟩, ⟨b1, i1, f1⟩⟩, bs, ds, tr⟩ := s
  rcases hu with rfl | rfl
  · cases i0 <;>
    by_cases he : o.err = ESP_OK <;>
    by_cases hs : o.stores_on_error = true <;>
    simp [gpio_init_result, bus_cfg_of, Contexts.get, Contexts.set, i2c_new_master_bus,
      i2c_del_master_bus, he, hs]
  · cases i1 <;>
    by_cases he : o.err = ESP_OK <;>
    by_cases hs : o.stores_on_error = true <;>
    simp [gpio_init_result, bus_cfg_of, Contexts.get, Contexts.set, i2c_new_master_bus,
      i2c_del_master_bus, he, hs]

/-! ## Port validation -/

/-- C2. I2C_read_timeout_us and I2C_write_timeout_us validate the port before
touching the driver: when unit_num is outside 0 and 1, or is 0 or 1 with that
unit not initialized, both return ERROR_INVALID_UNIT, the log of driver calls
is unchanged and both unit contexts are unchanged (the whole state is). -/
theorem read_write_validate_port (K : i2c_status_t) (s : State) (unit_num : Int)
    (addr buf len : Nat) (nostop : Bool) (timeout_us : Nat) (o : XferOutcome)
    (h : ¬ (unit_num = 0 ∨ unit_num = 1) ∨
      ((unit_num = 0 ∨ unit_num = 1) ∧ (s.i2c_contexts.get unit_num).initialized = false)) :
    (I2C_read_timeout_us K s unit_num addr buf len nostop timeout_us o).1 = K.ERROR_INVALID_UNIT ∧
    (I2C_read_timeout_us K s unit_num addr buf len nostop timeout_us o).2.trace = s.trace ∧
    (I2C_read_timeout_us K s unit_num addr buf len nostop timeout_us o).2.i2c_contexts =
      s.i2c_contexts ∧
    (I2C_read_timeout_us K s unit_num addr buf len nostop timeout_us o).2 = s ∧
    (I2C_write_timeout_us K s unit_num addr buf len nostop timeout_us o).1 = K.ERROR_INVALID_UNIT ∧
    (I2C_write_timeout_us K s unit_num addr buf len nostop timeout_us o).2.trace = s.trace ∧
    (I2C_write_timeout_us K s unit_num addr buf len nostop timeout_us o).2.i2c_contexts =
      s.i2c_contexts ∧
    (I2C_write_timeout_us K s unit_num addr buf len nostop timeout_us o).2 = s := by
  have hc : unit_num < 0 ∨ unit_num ≥ 2 ∨ (s.i2c_contexts.get unit_num).initialized = false := by
    rcases h with h | ⟨_, h⟩
    · rcases (unit_check_iff unit_num).mpr h with h | h
      · exact Or.inl h
      · exact Or.inr (Or.inl h)
    · exact Or.inr (Or.inr h)
  rw [read_rejected K s unit_num addr buf len nostop timeout_us o hc,
    write_rejected K s unit_num addr buf len nostop timeout_us o hc]
  exact ⟨rfl, rfl, rfl, rfl, rfl, rfl, rfl, rfl⟩

/-- A read and a write on unit 1, which was never initialised, in a state
whose unit 0 is initialised. -/
theorem read_write_validate_port_witness :
    (I2C_read_timeout_us picoruby_status demo_state 1 80 4096 4 false 1000 ⟨0, 7, 0⟩).1 =
      picoruby_status.ERROR_INVALID_UNIT ∧
    (I2C_read_timeout_us picoruby_status demo_state 1 80 4096 4 false 1000 ⟨0, 7, 0⟩).2.trace =
      demo_state.trace ∧
    (I2C_read_timeout_us picoruby_status demo_state 1 80 4096 4 false 1000 ⟨0, 7, 0⟩).2.i2c_contexts =
      demo_state.i2c_contexts ∧
    (I2C_read_timeout_us picoruby_status demo_state 1 80 4096 4 false 1000 ⟨0, 7, 0⟩).2 =
      demo_state ∧
    (I2C_write_timeout_us picoruby_status demo_state 1 80 4096 4 false 1000 ⟨0, 7, 0⟩).1 =
      picoruby_status.ERROR_INVALID_UNIT ∧
    (I2C_write_timeout_us picoruby_status demo_state 1 80 4096 4 false 1000 ⟨0, 7, 0⟩).2.trace =
      demo_state.trace ∧
    (I2C_write_timeout_us picoruby_status demo_state 1 80 4096 4 false 1000 ⟨0, 7, 0⟩).2.i2c_contexts =
      demo_state.i2c_contexts ∧
    (I2C_write_timeout_us picoruby_status demo_state 1 80 4096 4 false 1000 ⟨0, 7, 0⟩).2 =
      demo_state :=
  read_write_validate_port picoruby_status demo_state 1 80 4096 4 false 1000 ⟨0, 7, 0⟩
    (Or.inr ⟨Or.inr rfl, by decide⟩)

/-- C3. Whenever ERROR_NONE and ERROR_INVALID_UNIT are different values,
I2C_gpio_init returns ERROR_NONE exactly when unit_num is 0 or 1 and the bus
creation reports ESP_OK; in every other case it returns ERROR_INVALID_UNIT;
and when unit_num is outside 0 and 1 the log of driver calls and both unit
contexts are unchanged (the whole state is). -/
theorem I2C_gpio_init_status (K : i2c_status_t) (hK : K.ERROR_NONE ≠ K.ERROR_INVALID_UNIT)
    (s : State) (unit_num : Int) (frequency : Nat) (sda_pin scl_pin : Int) (o : BusOutcome) :
    ((I2C_gpio_init K s unit_num frequency sda_pin scl_pin o).1 = K.ERROR_NONE ↔
      (unit_num = 0 ∨ unit_num = 1) ∧ o.err = ESP_OK) ∧
    (¬ ((unit_num = 0 ∨ unit_num = 1) ∧ o.err = ESP_OK) →
      (I2C_gpio_init K s unit_num frequency sda_pin scl_pin o).1 = K.ERROR_INVALID_UNIT) ∧
    (¬ (unit_num = 0 ∨ unit_num = 1) →
      (I2C_gpio_init K s unit_num frequency sda_pin scl_pin o).2.trace = s.trace ∧
      (I2C_gpio_init K s unit_num frequency sda_pin scl_pin o).2.i2c_contexts = s.i2c_contexts ∧
      (I2C_gpio_init K s unit_num frequency sda_pin scl_pin o).2 = s) := by
  by_cases hu : unit_num = 0 ∨ unit_num = 1
  · rw [gpio_init_valid K s unit_num frequency sda_pin scl_pin o hu]
    by_cases he : o.err = ESP_OK
    · refine ⟨⟨fun _ => ⟨hu, he⟩, fun _ => by simp [he]⟩, fun h => absurd ⟨hu, he⟩ h,
        fun h => absurd hu h⟩
    · refine ⟨⟨fun h => ?_, fun h => absurd h.2 he⟩, fun _ => by simp [he],
        fun h => absurd hu h⟩
      simp only [ne_eq, he, not_false_eq_true, if_true] at h
      exact absurd h.symm hK
  · rw [gpio_init_rejected K s unit_num frequency sda_pin scl_pin o hu]
    exact ⟨⟨fun h => absurd h.symm hK, fun h => absurd h.1 hu⟩, fun _ => rfl,
      fun _ => ⟨rfl, rfl, rfl⟩⟩

/-- The status of I2C_gpio_init on unit 2, which does not exist, and on unit 1
with a driver that accepts; the first leaves the state alone. -/
theorem I2C_gpio_init_status_witness :
    (((I2C_gpio_init picoruby_status demo_state 2 400000 4 5 ⟨0, 12, false⟩).1 =
        picoruby_status.ERROR_NONE ↔ ((2 : Int) = 0 ∨ (2 : Int) = 1) ∧ (0 : Int) = ESP_OK) ∧
     (¬ (((2 : Int) = 0 ∨ (2 : Int) = 1) ∧ (0 : Int) = ESP_OK) →
        (I2C_gpio_init picoruby_status demo_state 2 400000 4 5 ⟨0, 12, false⟩).1 =
          picoruby_status.ERROR_INVALID_UNIT) ∧
     (¬ ((2 : Int) = 0 ∨ (2 : Int) = 1) →
        (I2C_gpio_init picoruby_status demo_state 2 400000 4 5 ⟨0, 12, false⟩).2.trace =
          demo_state.trace ∧
        (I2C_gpio_init picoruby_status demo_state 2 400000 4 5 ⟨0, 12, false⟩).2.i2c_contexts =
          demo_state.i2c_contexts ∧
        (I2C_gpio_init picoruby_status demo_state 2 400000 4 5 ⟨0, 12, false⟩).2 = demo_state)) ∧
    (I2C_gpio_init picoruby_status demo_state 2 400000 4 5 ⟨0, 12, false⟩).1 = -1 ∧
    (I2C_gpio_init picoruby_status demo_state 1 400000 4 5 ⟨0, 12, false⟩).1 = 0 ∧
    (I2C_gpio_init picoruby_status demo_state 1 400000 4 5 ⟨263, 12, false⟩).1 = -1 :=
  ⟨I2C_gpio_init_status picoruby_status (by decide) demo_state 2 400000 4 5 ⟨0, 12, false⟩,
   by decide, by decide, by decide⟩

/-! ## Timeout translation -/

/-- While timeout_us + 999 fits in 32 bits, the translation is the rounded-up
number of milliseconds, at least 10, and covers the requested time. -/
theorem timeout_ms_of_us_in_range (timeout_us : Nat) (h : timeout_us + 999 < UINT32_MOD) :
    timeout_ms_of_us timeout_us = max 10 ((timeout_us + 999) / 1000) ∧
    10 ≤ timeout_ms_of_us timeout_us ∧
    timeout_us ≤ timeout_ms_of_us timeout_us * 1000 := by
  unfold timeout_ms_of_us
  rw [Nat.mod_eq_of_lt h]
  simp only
  split_ifs with hlt <;> omega

/-- For the 999 largest values of a uint32_t the sum timeout_us + 999 wraps
around and the translation gives the minimum of 10 ms. -/
theorem timeout_ms_of_us_wrapped (timeout_us : Nat) (h : timeout_us < UINT32_MOD)
    (hw : UINT32_MOD ≤ timeout_us + 999) : timeout_ms_of_us timeout_us = 10 := by
  unfold timeout_ms_of_us
  unfold UINT32_MOD at *
  have e : (timeout_us + 999) % 2 ^ 32 = timeout_us + 999 - 2 ^ 32 := by
    rw [Nat.mod_eq_sub_mod hw]
    exact Nat.mod_eq_of_lt (by omega)
  rw [e]
  simp only
  split_ifs with hlt <;> omega

/-- C4. At timeout_us = 4294967295 (UINT32_MAX) the translation gives 10 ms,
not the rounded-up 4294968 ms: the read and the write pass 10 to the
transfer call, and 10 ms is less than the requested time. -/
theorem timeout_wraps_at_uint32_max :
    timeout_ms_of_us 4294967295 = 10 ∧
    max 10 ((4294967295 + 999) / 1000) = 4294968 ∧
    timeout_ms_of_us 4294967295 * 1000 < 4294967295 ∧
    (I2C_read_timeout_us picoruby_status demo_state 0 80 4096 4 false 4294967295
        ⟨0, 7, 0⟩).2.trace =
      demo_state.trace ++
        [DriverCall.add_device 11 ⟨i2c_addr_bit_len_t.I2C_ADDR_BIT_LEN_7, 80, 100000⟩,
         DriverCall.receive 7 4096 4 10, DriverCall.rm_device 7] ∧
    (I2C_write_timeout_us picoruby_status demo_state 0 80 4096 4 false 4294967295
        ⟨0, 7, 0⟩).2.trace =
      demo_state.trace ++
        [DriverCall.add_device 11 ⟨i2c_addr_bit_len_t.I2C_ADDR_BIT_LEN_7, 80, 100000⟩,
         DriverCall.transmit 7 4096 4 10, DriverCall.rm_device 7] := by
  have e : timeout_ms_of_us 4294967295 = 10 :=
    timeout_ms_of_us_wrapped 4294967295 (by norm_num [UINT32_MOD]) (by norm_num [UINT32_MOD])
  have hi : (demo_state.i2c_contexts.get 0).initialized = true := by decide
  refine ⟨e, by norm_num, by rw [e]; norm_num, ?_, ?_⟩
  · rw [read_added picoruby_status demo_state 0 80 4096 4 false 4294967295 ⟨0, 7, 0⟩
      (Or.inl rfl) hi rfl, e]
    rfl
  · rw [write_added picoruby_status demo_state 0 80 4096 4 false 4294967295 ⟨0, 7, 0⟩
      (Or.inl rfl) hi rfl, e]
    rfl

/-- The translated timeout is below 2^31, so passing the uint32_t to the int
parameter xfer_timeout_ms of the transfer calls keeps its value. -/
theorem timeout_ms_of_us_lt (timeout_us : Nat) : timeout_ms_of_us timeout_us < 2 ^ 31 := by
  unfold timeout_ms_of_us UINT32_MOD
  have h : (timeout_us + 999) % 2 ^ 32 < 2 ^ 32 := Nat.mod_lt _ (by norm_num)
  simp only
  split_ifs with hlt <;> omega

/-! ## Transactions -/

/-- C5. The device handle is created and destroyed per transaction: every
read or write call leaves the collection of open device handles as it was, and
when the unit is initialized and add-device succeeds the driver calls of the
call are exactly add-device, the transfer, and one remove-device on the handle
that add-device returned, whatever the transfer reports. -/
theorem device_handle_per_transaction (K : i2c_status_t) (s : State) (unit_num : Int)
    (addr buf len : Nat) (nostop : Bool) (timeout_us : Nat) (o : XferOutcome) :
    (I2C_read_timeout_us K s unit_num addr buf len nostop timeout_us o).2.devices = s.devices ∧
    (I2C_write_timeout_us K s unit_num addr buf len nostop timeout_us o).2.devices = s.devices ∧
    ((unit_num = 0 ∨ unit_num = 1) → (s.i2c_contexts.get unit_num).initialized = true →
      o.add_err = ESP_OK →
      (I2C_read_timeout_us K s unit_num addr buf len nostop timeout_us o).2.trace =
        s.trace ++
          [DriverCall.add_device (s.i2c_contexts.get unit_num).bus_handle
             ⟨i2c_addr_bit_len_t.I2C_ADDR_BIT_LEN_7, addr,
              (s.i2c_contexts.get unit_num).frequency⟩,
           DriverCall.receive o.dev_handle buf len (timeout_ms_of_us timeout_us),
           DriverCall.rm_device o.dev_handle] ∧
      (I2C_write_timeout_us K s unit_num addr buf len nostop timeout_us o).2.trace =
        s.trace ++
          [DriverCall.add_device (s.i2c_contexts.get unit_num).bus_handle
             ⟨i2c_addr_bit_len_t.I2C_ADDR_BIT_LEN_7, addr,
              (s.i2c_contexts.get unit_num).frequency⟩,
           DriverCall.transmit o.dev_handle buf len (timeout_ms_of_us timeout_us),
           DriverCall.rm_device o.dev_handle]) := by
  by_cases hc : unit_num < 0 ∨ unit_num ≥ 2 ∨ (s.i2c_contexts.get unit_num).initialized = false
  · rw [read_rejected K s unit_num addr buf len nostop timeout_us o hc,
      write_rejected K s unit_num addr buf len nostop timeout_us o hc]
    refine ⟨rfl, rfl, fun hu hi _ => ?_⟩
    exfalso
    rcases hc with h | h | h
    · omega
    · omega
    · rw [hi] at h; exact Bool.noConfusion h
  · have hu : unit_num = 0 ∨ unit_num = 1 := by omega
    have hi : (s.i2c_contexts.get unit_num).initialized = true := by
      cases hb : (s.i2c_contexts.get unit_num).initialized
      · exact absurd (Or.inr (Or.inr hb)) hc
      · rfl
    by_cases ha : o.add_err = ESP_OK
    · rw [read_added K s unit_num addr buf len nostop timeout_us o hu hi ha,
        write_added K s unit_num addr buf len nostop timeout_us o hu hi ha]
      exact ⟨rfl, rfl, fun _ _ _ => ⟨rfl, rfl⟩⟩
    · rw [read_add_failed K s unit_num addr buf len nostop timeout_us o hu hi ha,
        write_add_failed K s unit_num addr buf len nostop timeout_us o hu hi ha]
      exact ⟨rfl, rfl, fun _ _ h => absurd h ha⟩

/-- A read and a write on the initialised unit 0 whose transfer times out
(ESP_ERR_TIMEOUT is 263): device handle 7 is removed all the same. -/
theorem device_handle_per_transaction_witness :
    (I2C_read_timeout_us picoruby_status demo_state 0 80 4096 4 false 1000
        ⟨0, 7, 263⟩).2.devices = demo_state.devices ∧
    (I2C_write_timeout_us picoruby_status demo_state 0 80 4096 4 false 1000
        ⟨0, 7, 263⟩).2.devices = demo_state.devices ∧
    (I2C_read_timeout_us picoruby_status demo_state 0 80 4096 4 false 1000
        ⟨0, 7, 263⟩).2.trace =
      demo_state.trace ++
        [DriverCall.add_device 11 ⟨i2c_addr_bit_len_t.I2C_ADDR_BIT_LEN_7, 80, 100000⟩,
         DriverCall.receive 7 4096 4 10, DriverCall.rm_device 7] ∧
    (I2C_write_timeout_us picoruby_status demo_state 0 80 4096 4 false 1000
        ⟨0, 7, 263⟩).2.trace =
      demo_state.trace ++
        [DriverCall.add_device 11 ⟨i2c_addr_bit_len_t.I2C_ADDR_BIT_LEN_7, 80, 100000⟩,
         DriverCall.transmit 7 4096 4 10, DriverCall.rm_device 7] :=
  have h := device_handle_per_transaction picoruby_status demo_state 0 80 4096 4 false 1000
    ⟨0, 7, 263⟩
  ⟨h.1, h.2.1, (h.2.2 (Or.inl rfl) (by decide) rfl).1, (h.2.2 (Or.inl rfl) (by decide) rfl).2⟩

/-! ## Return values -/

/-- A length that fits in an int is returned unchanged. -/
theorem int_of_size_t_small (len : Nat) (h : len ≤ INT_MAX) : int_of_size_t len = (len : Int) := by
  unfold INT_MAX at h
  have h1 : len % UINT32_MOD = len := Nat.mod_eq_of_lt (by unfold UINT32_MOD; omega)
  unfold int_of_size_t
  rw [h1, if_pos (by omega)]

/-- The result of a read or write on an initialized unit, by driver outcome. -/
theorem transfer_result (K : i2c_status_t) (s : State) (unit_num : Int)
    (addr buf len : Nat) (nostop : Bool) (timeout_us : Nat) (o : XferOutcome)
    (hu : unit_num = 0 ∨ unit_num = 1)
    (hi : (s.i2c_contexts.get unit_num).initialized = true) :
    (I2C_read_timeout_us K s unit_num addr buf len nostop timeout_us o).1 =
      (if o.add_err = ESP_OK ∧ o.xfer_err = ESP_OK then int_of_size_t len else -1) ∧
    (I2C_write_timeout_us K s unit_num addr buf len nostop timeout_us o).1 =
      (if o.add_err = ESP_OK ∧ o.xfer_err = ESP_OK then int_of_size_t len else -1) := by
  by_cases ha : o.add_err = ESP_OK
  · rw [read_added K s unit_num addr buf len nostop timeout_us o hu hi ha,
      write_added K s unit_num addr buf len nostop timeout_us o hu hi ha]
    by_cases hx : o.xfer_err = ESP_OK <;> simp [ha, hx]
  · rw [read_add_failed K s unit_num addr buf len nostop timeout_us o hu hi ha,
      write_add_failed K s unit_num addr buf len nostop timeout_us o hu hi ha]
    simp [ha]

/-- C6, as stated, fails: a read and a write of 2147483648 bytes on the
initialised unit 0, with add-device and the transfer both reporting ESP_OK,
return -2147483648, which is negative and is not the length. -/
theorem transfer_result_large_len :
    (demo_state.i2c_contexts.get 0).initialized = true ∧
    (2147483648 : Nat) < UINT32_MOD ∧
    (I2C_read_timeout_us picoruby_status demo_state 0 80 4096 2147483648 false 1000
        ⟨ESP_OK, 7, ESP_OK⟩).1 = -2147483648 ∧
    (I2C_write_timeout_us picoruby_status demo_state 0 80 4096 2147483648 false 1000
        ⟨ESP_OK, 7, ESP_OK⟩).1 = -2147483648 ∧
    (I2C_read_timeout_us picoruby_status demo_state 0 80 4096 2147483648 false 1000
        ⟨ESP_OK, 7, ESP_OK⟩).1 ≠ ((2147483648 : Nat) : Int) ∧
    ¬ (0 ≤ (I2C_read_timeout_us picoruby_status demo_state 0 80 4096 2147483648 false 1000
        ⟨ESP_OK, 7, ESP_OK⟩).1) := by
  have hi : (demo_state.i2c_contexts.get 0).initialized = true := by decide
  have e := transfer_result picoruby_status demo_state 0 80 4096 2147483648 false 1000
    ⟨ESP_OK, 7, ESP_OK⟩ (Or.inl rfl) hi
  have v : int_of_size_t 2147483648 = -2147483648 := by
    unfold int_of_size_t UINT32_MOD
    norm_num
  simp only [and_self, if_true] at e
  rw [v] at e
  refine ⟨hi, by norm_num [UINT32_MOD], e.1, e.2, ?_, ?_⟩
  · rw [e.1]; norm_num
  · rw [e.1]; norm_num

/-- C6, amended. On an initialized unit, for every length a read or write
returns -1, a negative value, when add-device or the transfer reports an
error; and for a length of at most INT_MAX it returns the length when both
report ESP_OK, so that the result is non-negative exactly when the transaction
succeeded. -/
theorem transfer_result_sign (K : i2c_status_t) (s : State) (unit_num : Int)
    (addr buf len : Nat) (nostop : Bool) (timeout_us : Nat) (o : XferOutcome)
    (hu : unit_num = 0 ∨ unit_num = 1)
    (hi : (s.i2c_contexts.get unit_num).initialized = true) :
    (o.add_err ≠ ESP_OK ∨ o.xfer_err ≠ ESP_OK →
      (I2C_read_timeout_us K s unit_num addr buf len nostop timeout_us o).1 = -1 ∧
      (I2C_write_timeout_us K s unit_num addr buf len nostop timeout_us o).1 = -1 ∧
      (I2C_read_timeout_us K s unit_num addr buf len nostop timeout_us o).1 < 0 ∧
      (I2C_write_timeout_us K s unit_num addr buf len nostop timeout_us o).1 < 0) ∧
    (len ≤ INT_MAX →
      (o.add_err = ESP_OK ∧ o.xfer_err = ESP_OK →
        (I2C_read_timeout_us K s unit_num addr buf len nostop timeout_us o).1 = (len : Int) ∧
        (I2C_write_timeout_us K s unit_num addr buf len nostop timeout_us o).1 = (len : Int)) ∧
      (0 ≤ (I2C_read_timeout_us K s unit_num addr buf len nostop timeout_us o).1 ↔
        o.add_err = ESP_OK ∧ o.xfer_err = ESP_OK) ∧
      (0 ≤ (I2C_write_timeout_us K s unit_num addr buf len nostop timeout_us o).1 ↔
        o.add_err = ESP_OK ∧ o.xfer_err = ESP_OK)) := by
  obtain ⟨er, ew⟩ := transfer_result K s unit_num addr buf len nostop timeout_us o hu hi
  rw [er, ew]
  constructor
  · intro h
    have hn : ¬ (o.add_err = ESP_OK ∧ o.xfer_err = ESP_OK) := by
      rintro ⟨h1, h2⟩
      rcases h with h | h
      · exact h h1
      · exact h h2
    rw [if_neg hn]
    exact ⟨rfl, rfl, by norm_num, by norm_num⟩
  · intro hlen
    rw [int_of_size_t_small len hlen]
    by_cases hok : o.add_err = ESP_OK ∧ o.xfer_err = ESP_OK
    · rw [if_pos hok]
      exact ⟨fun _ => ⟨rfl, rfl⟩, ⟨fun _ => hok, fun _ => by omega⟩,
        ⟨fun _ => hok, fun _ => by omega⟩⟩
    · rw [if_neg hok]
      refine ⟨fun h => absurd h hok, ⟨fun h => ?_, fun h => absurd h hok⟩,
        ⟨fun h => ?_, fun h => absurd h hok⟩⟩
      · exact absurd h (by norm_num)
      · exact absurd h (by norm_num)

/-- On the initialised unit 0: a read and write of 2147483648 bytes whose
transfer times out (263) return -1, and a 4-byte read and write that succeed
return 4 and are the non-negative case. -/
theorem transfer_result_sign_witness :
    ((I2C_read_timeout_us picoruby_status demo_state 0 80 4096 2147483648 false 1000
        ⟨ESP_OK, 7, 263⟩).1 = -1 ∧
     (I2C_write_timeout_us picoruby_status demo_state 0 80 4096 2147483648 false 1000
        ⟨ESP_OK, 7, 263⟩).1 = -1 ∧
     (I2C_read_timeout_us picoruby_status demo_state 0 80 4096 2147483648 false 1000
        ⟨ESP_OK, 7, 263⟩).1 < 0 ∧
     (I2C_write_timeout_us picoruby_status demo_state 0 80 4096 2147483648 false 1000
        ⟨ESP_OK, 7, 263⟩).1 < 0) ∧
    ((I2C_read_timeout_us picoruby_status demo_state 0 80 4096 4 false 1000
        ⟨ESP_OK, 7, ESP_OK⟩).1 = ((4 : Nat) : Int) ∧
     (I2C_write_timeout_us picoruby_status demo_state 0 80 4096 4 false 1000
        ⟨ESP_OK, 7, ESP_OK⟩).1 = ((4 : Nat) : Int)) ∧
    (0 ≤ (I2C_read_timeout_us picoruby_status demo_state 0 80 4096 4 false 1000
        ⟨ESP_OK, 7, ESP_OK⟩).1 ↔ ESP_OK = ESP_OK ∧ ESP_OK = ESP_OK) ∧
    (0 ≤ (I2C_write_timeout_us picoruby_status demo_state 0 80 4096 4 false 1000
        ⟨ESP_OK, 7, ESP_OK⟩).1 ↔ ESP_OK = ESP_OK ∧ ESP_OK = ESP_OK) :=
  have hf := transfer_result_sign picoruby_status demo_state 0 80 4096 2147483648 false 1000
    ⟨ESP_OK, 7, 263⟩ (Or.inl rfl) (by decide)
  have hs := transfer_result_sign picoruby_status demo_state 0 80 4096 4 false 1000
    ⟨ESP_OK, 7, ESP_OK⟩ (Or.inl rfl) (by decide)
  ⟨hf.1 (Or.inr (by decide)), (hs.2 (by decide)).1 ⟨rfl, rfl⟩, (hs.2 (by decide)).2.1,
    (hs.2 (by decide)).2.2⟩

/-- C7, as stated, fails: the driver error codes -1 (ESP_FAIL) and 263
(ESP_ERR_TIMEOUT) are different and neither is ESP_OK, yet I2C_gpio_init
returns the same value for both, and so do the read and the write, whether the
code comes from add-device or from the transfer. -/
theorem driver_errors_not_injective :
    (-1 : Int) ≠ 263 ∧ (-1 : Int) ≠ ESP_OK ∧ (263 : Int) ≠ ESP_OK ∧
    (I2C_gpio_init picoruby_status initial 0 100000 21 22 ⟨-1, 11, false⟩).1 =
      (I2C_gpio_init picoruby_status initial 0 100000 21 22 ⟨263, 11, false⟩).1 ∧
    (I2C_read_timeout_us picoruby_status demo_state 0 80 4096 4 false 1000 ⟨-1, 7, 0⟩).1 =
      (I2C_read_timeout_us picoruby_status demo_state 0 80 4096 4 false 1000 ⟨263, 7, 0⟩).1 ∧
    (I2C_read_timeout_us picoruby_status demo_state 0 80 4096 4 false 1000 ⟨0, 7, -1⟩).1 =
      (I2C_read_timeout_us picoruby_status demo_state 0 80 4096 4 false 1000 ⟨0, 7, 263⟩).1 ∧
    (I2C_write_timeout_us picoruby_status demo_state 0 80 4096 4 false 1000 ⟨-1, 7, 0⟩).1 =
      (I2C_write_timeout_us picoruby_status demo_state 0 80 4096 4 false 1000 ⟨263, 7, 0⟩).1 ∧
    (I2C_write_timeout_us picoruby_status demo_state 0 80 4096 4 false 1000 ⟨0, 7, -1⟩).1 =
      (I2C_write_timeout_us picoruby_status demo_state 0 80 4096 4 false 1000 ⟨0, 7, 263⟩).1 := by
  decide

/-- C7, amended. Driver errors are collapsed, not forwarded: on unit 0 or 1,
I2C_gpio_init returns ERROR_INVALID_UNIT for every error code other than
ESP_OK that the bus creation reports, and on an initialized unit the read and
the write return -1 for every error code other than ESP_OK that add-device or
the transfer reports. -/
theorem driver_errors_collapse (K : i2c_status_t) (s : State) (unit_num : Int)
    (frequency : Nat) (sda_pin scl_pin : Int) (ob : BusOutcome)
    (addr buf len : Nat) (nostop : Bool) (timeout_us : Nat) (o : XferOutcome)
    (hu : unit_num = 0 ∨ unit_num = 1) :
    (ob.err ≠ ESP_OK →
      (I2C_gpio_init K s unit_num frequency sda_pin scl_pin ob).1 = K.ERROR_INVALID_UNIT) ∧
    ((s.i2c_contexts.get unit_num).initialized = true →
      o.add_err ≠ ESP_OK ∨ o.xfer_err ≠ ESP_OK →
      (I2C_read_timeout_us K s unit_num addr buf len nostop timeout_us o).1 = -1 ∧
      (I2C_write_timeout_us K s unit_num addr buf len nostop timeout_us o).1 = -1) := by
  refine ⟨fun he => ?_, fun hi h => ?_⟩
  · rw [gpio_init_valid K s unit_num frequency sda_pin scl_pin ob hu]
    simp [he]
  · obtain ⟨er, ew⟩ := transfer_result K s unit_num addr buf len nostop timeout_us o hu hi
    have hn : ¬ (o.add_err = ESP_OK ∧ o.xfer_err = ESP_OK) := by
      rintro ⟨h1, h2⟩
      rcases h with h | h
      · exact h h1
      · exact h h2
    rw [er, ew, if_neg hn]
    exact ⟨rfl, rfl⟩

/-- A failed re-initialisation of unit 0 (ESP_ERR_TIMEOUT, 263) and a read and
write on unit 0 whose add-device fails (ESP_FAIL, -1). -/
theorem driver_errors_collapse_witness :
    (I2C_gpio_init picoruby_status demo_state 0 400000 21 22 ⟨263, 12, false⟩).1 =
      picoruby_status.ERROR_INVALID_UNIT ∧
    (I2C_read_timeout_us picoruby_status demo_state 0 80 4096 4 false 1000 ⟨-1, 7, 0⟩).1 = -1 ∧
    (I2C_write_timeout_us picoruby_status demo_state 0 80 4096 4 false 1000 ⟨-1, 7, 0⟩).1 = -1 :=
  have h := driver_errors_collapse picoruby_status demo_state 0 400000 21 22 ⟨263, 12, false⟩
    80 4096 4 false 1000 ⟨-1, 7, 0⟩ (Or.inl rfl)
  ⟨h.1 (by decide), (h.2 (by decide) (Or.inl (by decide))).1,
    (h.2 (by decide) (Or.inl (by decide))).2⟩

/-! ## The context table -/

/-- Reading back the entry just written. -/
theorem Contexts.get_set_same (t : Contexts) (u : Int) (c : i2c_bus_context_t) :
    (t.set u c).get u = c := by
  unfold Contexts.get Contexts.set
  by_cases h : u = 0 <;> simp [h]

/-- Writing one unit leaves the entry of the other unit alone. -/
theorem Contexts.get_set_other (t : Contexts) (u v : Int) (c : i2c_bus_context_t)
    (hu : u = 0 ∨ u = 1) (hv : v = 0 ∨ v = 1) (h : u ≠ v) :
    (t.set v c).get u = t.get u := by
  unfold Contexts.get Contexts.set
  rcases hu with rfl | rfl <;> rcases hv with rfl | rfl <;> simp at h ⊢

/-- A read never changes the table. -/
theorem read_contexts (K : i2c_status_t) (s : State) (unit_num : Int)
    (addr buf len : Nat) (nostop : Bool) (timeout_us : Nat) (o : XferOutcome) :
    (I2C_read_timeout_us K s unit_num addr buf len nostop timeout_us o).2.i2c_contexts =
      s.i2c_contexts ∧
    (I2C_read_timeout_us K s unit_num addr buf len nostop timeout_us o).2.buses = s.buses := by
  by_cases hc : unit_num < 0 ∨ unit_num ≥ 2 ∨ (s.i2c_contexts.get unit_num).initialized = false
  · rw [read_rejected K s unit_num addr buf len nostop timeout_us o hc]
    exact ⟨rfl, rfl⟩
  · have hu : unit_num = 0 ∨ unit_num = 1 := by omega
    have hi : (s.i2c_contexts.get unit_num).initialized = true := by
      cases hb : (s.i2c_contexts.get unit_num).initialized
      · exact absurd (Or.inr (Or.inr hb)) hc
      · rfl
    by_cases ha : o.add_err = ESP_OK
    · rw [read_added K s unit_num addr buf len nostop timeout_us o hu hi ha]
      exact ⟨rfl, rfl⟩
    · rw [read_add_failed K s unit_num addr buf len nostop timeout_us o hu hi ha]
      exact ⟨rfl, rfl⟩

/-- A write never changes the table. -/
theorem write_contexts (K : i2c_status_t) (s : State) (unit_num : Int)
    (addr buf len : Nat) (nostop : Bool) (timeout_us : Nat) (o : XferOutcome) :
    (I2C_write_timeout_us K s unit_num addr buf len nostop timeout_us o).2.i2c_contexts =
      s.i2c_contexts ∧
    (I2C_write_timeout_us K s unit_num addr buf len nostop timeout_us o).2.buses = s.buses := by
  by_cases hc : unit_num < 0 ∨ unit_num ≥ 2 ∨ (s.i2c_contexts.get unit_num).initialized = false
  · rw [write_rejected K s unit_num addr buf len nostop timeout_us o hc]
    exact ⟨rfl, rfl⟩
  · have hu : unit_num = 0 ∨ unit_num = 1 := by omega
    have hi : (s.i2c_contexts.get unit_num).initialized = true := by
      cases hb : (s.i2c_contexts.get unit_num).initialized
      · exact absurd (Or.inr (Or.inr hb)) hc
      · rfl
    by_cases ha : o.add_err = ESP_OK
    · rw [write_added K s unit_num addr buf len nostop timeout_us o hu hi ha]
      exact ⟨rfl, rfl⟩
    · rw [write_add_failed K s unit_num addr buf len nostop timeout_us o hu hi ha]
      exact ⟨rfl, rfl⟩

/-- When the two status values differ, a call that returns ERROR_NONE was on
unit 0 or 1 and its bus creation reported ESP_OK. -/
theorem gpio_init_success_inv (K : i2c_status_t) (hK : K.ERROR_NONE ≠ K.ERROR_INVALID_UNIT)
    (s : State) (unit_num : Int) (frequency : Nat) (sda_pin scl_pin : Int) (o : BusOutcome)
    (hret : (I2C_gpio_init K s unit_num frequency sda_pin scl_pin o).1 = K.ERROR_NONE) :
    (unit_num = 0 ∨ unit_num = 1) ∧ o.err = ESP_OK := by
  by_cases hu : unit_num = 0 ∨ unit_num = 1
  · rw [gpio_init_valid K s unit_num frequency sda_pin scl_pin o hu] at hret
    by_cases he : o.err = ESP_OK
    · exact ⟨hu, he⟩
    · simp only [ne_eq, he, not_false_eq_true, if_true] at hret
      exact absurd hret.symm hK
  · rw [gpio_init_rejected K s unit_num frequency sda_pin scl_pin o hu] at hret
    exact absurd hret.symm hK

/-- C8. A successful I2C_gpio_init on unit u (one that returns ERROR_NONE,
the two status values being different) leaves unit u initialized with the
given frequency and the bus handle returned by the driver, leaves the other
unit's context unchanged, and its driver calls are: one i2c_del_master_bus on
the previously stored handle if unit u was already initialized, none
otherwise, followed by the bus creation. -/
theorem gpio_init_success_effect (K : i2c_status_t) (hK : K.ERROR_NONE ≠ K.ERROR_INVALID_UNIT)
    (s : State) (u : Int) (f : Nat) (sda scl : Int) (o : BusOutcome)
    (hret : (I2C_gpio_init K s u f sda scl o).1 = K.ERROR_NONE) :
    (u = 0 ∨ u = 1) ∧
    (I2C_gpio_init K s u f sda scl o).2.i2c_contexts.get u = ⟨o.handle, true, f⟩ ∧
    (I2C_gpio_init K s u f sda scl o).2.i2c_contexts.get (1 - u) = s.i2c_contexts.get (1 - u) ∧
    (I2C_gpio_init K s u f sda scl o).2.trace =
      s.trace ++
        (if (s.i2c_contexts.get u).initialized
          then [DriverCall.del_master_bus (s.i2c_contexts.get u).bus_handle] else []) ++
        [DriverCall.new_master_bus
          ⟨i2c_clock_source_t.I2C_CLK_SRC_DEFAULT, u, scl, sda, 7, true⟩] := by
  obtain ⟨hu, he⟩ := gpio_init_success_inv K hK s u f sda scl o hret
  rw [gpio_init_valid K s u f sda scl o hu]
  have ho : (1 - u = 0 ∨ 1 - u = 1) := by omega
  refine ⟨hu, ?_, ?_, rfl⟩
  · simp only [gpio_init_result, he, if_true]
    exact Contexts.get_set_same _ _ _
  · simp only [gpio_init_result]
    exact Contexts.get_set_other _ _ _ _ ho hu (by omega)

/-- A re-initialisation of unit 0 at 400 kHz for which the driver returns bus
handle 12: the old handle 11 is deleted once, then the bus is created. -/
theorem gpio_init_success_effect_witness :
    ((0 : Int) = 0 ∨ (0 : Int) = 1) ∧
    (I2C_gpio_init picoruby_status demo_state 0 400000 21 22 ⟨0, 12, false⟩).2.i2c_contexts.get 0 =
      ⟨12, true, 400000⟩ ∧
    (I2C_gpio_init picoruby_status demo_state 0 400000 21 22 ⟨0, 12, false⟩).2.i2c_contexts.get
      (1 - 0) = demo_state.i2c_contexts.get (1 - 0) ∧
    (I2C_gpio_init picoruby_status demo_state 0 400000 21 22 ⟨0, 12, false⟩).2.trace =
      demo_state.trace ++
        (if (demo_state.i2c_contexts.get 0).initialized
          then [DriverCall.del_master_bus (demo_state.i2c_contexts.get 0).bus_handle] else []) ++
        [DriverCall.new_master_bus
          ⟨i2c_clock_source_t.I2C_CLK_SRC_DEFAULT, 0, 22, 21, 7, true⟩] :=
  gpio_init_success_effect picoruby_status (by decide) demo_state 0 400000 21 22 ⟨0, 12, false⟩
    (by decide)

/-! ## Sequences of calls -/

/-- A call other than an I2C_gpio_init on unit u leaves the context of unit u alone. -/
theorem step_preserves_ctx (K : i2c_status_t) (s : State) (c : Call) (u : Int)
    (hu : u = 0 ∨ u = 1) (hc : Call.isInitOf u c = false) :
    (step K s c).i2c_contexts.get u = s.i2c_contexts.get u := by
  cases c with
  | gpio_init v f sda scl o =>
    have hvu : v ≠ u := by
      intro h
      simp [Call.isInitOf, h] at hc
    simp only [step]
    by_cases hv : v = 0 ∨ v = 1
    · rw [gpio_init_valid K s v f sda scl o hv]
      simp only [gpio_init_result]
      exact Contexts.get_set_other _ _ _ _ hu hv (fun h => hvu h.symm)
    · rw [gpio_init_rejected K s v f sda scl o hv]
  | read v addr dst len nostop t o =>
    simp only [step]
    rw [(read_contexts K s v addr dst len nostop t o).1]
  | write v addr src len nostop t o =>
    simp only [step]
    rw [(write_contexts K s v addr src len nostop t o).1]

/-- A sequence of calls without an I2C_gpio_init on unit u leaves the context
of unit u alone. -/
theorem run_preserves_ctx (K : i2c_status_t) (cs : List Call) (s : State) (u : Int)
    (hu : u = 0 ∨ u = 1) (hcs : ∀ c ∈ cs, Call.isInitOf u c = false) :
    (run K s cs).i2c_contexts.get u = s.i2c_contexts.get u := by
  induction cs generalizing s with
  | nil => rfl
  | cons c cs ih =>
    have h1 := step_preserves_ctx K s c u hu (hcs c (List.mem_cons_self c cs))
    have h2 := ih (step K s c) (fun d hd => hcs d (List.mem_cons_of_mem c hd))
    simp only [run, List.foldl_cons] at h2 ⊢
    rw [h2, h1]

/-- C9. Every transaction is a 7-bit-addressed transfer at the frequency given
at initialisation: if I2C_gpio_init on unit u returned ERROR_NONE with
frequency f and the driver returned bus handle h, then after any sequence of
further calls that contains no I2C_gpio_init on u, a read or write on u with
address addr first calls add-device on bus handle h with 7-bit address length,
device_address = addr and scl_speed_hz = f, and, add-device having succeeded,
calls receive (for read) or transmit (for write) with the caller's buffer
pointer and len unchanged. -/
theorem transactions_use_init_frequency (K : i2c_status_t)
    (hK : K.ERROR_NONE ≠ K.ERROR_INVALID_UNIT) (s0 : State) (u : Int) (f : Nat)
    (sda scl : Int) (ob : BusOutcome)
    (hret : (I2C_gpio_init K s0 u f sda scl ob).1 = K.ERROR_NONE)
    (cs : List Call) (hcs : ∀ c ∈ cs, Call.isInitOf u c = false)
    (addr buf len : Nat) (nostop : Bool) (timeout_us : Nat) (o : XferOutcome) :
    (I2C_read_timeout_us K (run K (I2C_gpio_init K s0 u f sda scl ob).2 cs) u addr buf len nostop
        timeout_us o).2.trace =
      (run K (I2C_gpio_init K s0 u f sda scl ob).2 cs).trace ++
        (DriverCall.add_device ob.handle ⟨i2c_addr_bit_len_t.I2C_ADDR_BIT_LEN_7, addr, f⟩ ::
          (if o.add_err = ESP_OK then
            [DriverCall.receive o.dev_handle buf len (timeout_ms_of_us timeout_us),
             DriverCall.rm_device o.dev_handle]
           else [])) ∧
    (I2C_write_timeout_us K (run K (I2C_gpio_init K s0 u f sda scl ob).2 cs) u addr buf len nostop
        timeout_us o).2.trace =
      (run K (I2C_gpio_init K s0 u f sda scl ob).2 cs).trace ++
        (DriverCall.add_device ob.handle ⟨i2c_addr_bit_len_t.I2C_ADDR_BIT_LEN_7, addr, f⟩ ::
          (if o.add_err = ESP_OK then
            [DriverCall.transmit o.dev_handle buf len (timeout_ms_of_us timeout_us),
             DriverCall.rm_device o.dev_handle]
           else [])) := by
  obtain ⟨hu, he⟩ := gpio_init_success_inv K hK s0 u f sda scl ob hret
  have hctx : (I2C_gpio_init K s0 u f sda scl ob).2.i2c_contexts.get u = ⟨ob.handle, true, f⟩ := by
    rw [gpio_init_valid K s0 u f sda scl ob hu]
    simp only [gpio_init_result, he, if_true]
    exact Contexts.get_set_same _ _ _
  have hrun := run_preserves_ctx K cs (I2C_gpio_init K s0 u f sda scl ob).2 u hu hcs
  rw [hctx] at hrun
  generalize run K (I2C_gpio_init K s0 u f sda scl ob).2 cs = s at hrun ⊢
  have hi : (s.i2c_contexts.get u).initialized = true := by rw [hrun]
  by_cases ha : o.add_err = ESP_OK
  · rw [read_added K s u addr buf len nostop timeout_us o hu hi ha,
      write_added K s u addr buf len nostop timeout_us o hu hi ha]
    simp [dev_cfg_of, hrun, ha]
  · rw [read_add_failed K s u addr buf len nostop timeout_us o hu hi ha,
      write_add_failed K s u addr buf len nostop timeout_us o hu hi ha]
    simp [dev_cfg_of, hrun, ha]

/-- Unit 0 is initialised at 100 kHz with bus handle 11; after the calls of
demo_calls a read and a write on unit 0 at address 80 still use bus handle 11,
7-bit addressing and 100 kHz, and pass buffer 8192 and length 6 unchanged. -/
theorem transactions_use_init_frequency_witness :
    (I2C_read_timeout_us picoruby_status
        (run picoruby_status (I2C_gpio_init picoruby_status initial 0 100000 21 22
          ⟨0, 11, false⟩).2 demo_calls) 0 80 8192 6 false 20000 ⟨0, 9, 0⟩).2.trace =
      (run picoruby_status (I2C_gpio_init picoruby_status initial 0 100000 21 22
          ⟨0, 11, false⟩).2 demo_calls).trace ++
        (DriverCall.add_device 11 ⟨i2c_addr_bit_len_t.I2C_ADDR_BIT_LEN_7, 80, 100000⟩ ::
          (if (0 : Int) = ESP_OK then
            [DriverCall.receive 9 8192 6 (timeout_ms_of_us 20000), DriverCall.rm_device 9]
           else [])) ∧
    (I2C_write_timeout_us picoruby_status
        (run picoruby_status (I2C_gpio_init picoruby_status initial 0 100000 21 22
          ⟨0, 11, false⟩).2 demo_calls) 0 80 8192 6 false 20000 ⟨0, 9, 0⟩).2.trace =
      (run picoruby_status (I2C_gpio_init picoruby_status initial 0 100000 21 22
          ⟨0, 11, false⟩).2 demo_calls).trace ++
        (DriverCall.add_device 11 ⟨i2c_addr_bit_len_t.I2C_ADDR_BIT_LEN_7, 80, 100000⟩ ::
          (if (0 : Int) = ESP_OK then
            [DriverCall.transmit 9 8192 6 (timeout_ms_of_us 20000), DriverCall.rm_device 9]
           else [])) :=
  transactions_use_init_frequency picoruby_status (by decide) initial 0 100000 21 22
    ⟨0, 11, false⟩ (by decide) demo_calls (by decide) 80 8192 6 false 20000 ⟨0, 9, 0⟩

/-! ## The invariant of the context table -/

/-- The invariant holds at program start. -/
theorem inv_initial : Inv initial := by
  intro h
  simp [uses, initial]

/-- Under the invariant, the handle of an initialized unit is live. -/
theorem inv_mem (s : State) (hs : Inv s) (u : Int) (hu : u = 0 ∨ u = 1)
    (hi : (s.i2c_contexts.get u).initialized = true) :
    (s.i2c_contexts.get u).bus_handle ∈ s.buses := by
  have h := hs (s.i2c_contexts.get u).bus_handle
  rw [← List.one_le_count_iff]
  refine le_trans ?_ h
  rcases hu with rfl | rfl
  · have e : s.i2c_contexts.get 0 = s.i2c_contexts.c0 := by simp [Contexts.get]
    rw [e] at hi ⊢
    simp [uses, hi]
  · have e : s.i2c_contexts.get 1 = s.i2c_contexts.c1 := by simp [Contexts.get]
    rw [e] at hi ⊢
    simp [uses, hi]

/-- I2C_gpio_init on unit 0 or 1 keeps the invariant, whatever the driver reports. -/
theorem gpio_init_result_inv (s : State) (u : Int) (f : Nat) (sda scl : Int) (o : BusOutcome)
    (hu : u = 0 ∨ u = 1) (hs : Inv s) : Inv (gpio_init_result s u f sda scl o) := by
  intro h
  have hh := hs h
  obtain ⟨⟨⟨b0, i0, f0⟩, ⟨b1, i1, f1⟩⟩, bs, ds, tr⟩ := s
  simp only [uses] at hh
  rcases hu with rfl | rfl
  · cases i0 <;>
    by_cases he : o.err = ESP_OK <;>
    by_cases hst : o.stores_on_error = true <;>
    simp only [gpio_init_result, uses, Contexts.get, Contexts.set, he, hst, if_true, if_false,
      List.count_cons, List.count_erase, List.nil_append, List.singleton_append, beq_iff_eq,
      Bool.false_eq_true, false_and, true_and, zero_add] at hh ⊢ <;>
    split_ifs at hh ⊢ <;> simp_all <;> omega
  · cases i1 <;>
    by_cases he : o.err = ESP_OK <;>
    by_cases hst : o.stores_on_error = true <;>
    simp only [gpio_init_result, uses, Contexts.get, Contexts.set, he, hst, if_true, if_false,
      List.count_cons, List.count_erase, List.nil_append, List.singleton_append, beq_iff_eq,
      Bool.false_eq_true, false_and, true_and, zero_add, one_ne_zero] at hh ⊢ <;>
    split_ifs at hh ⊢ <;> simp_all <;> omega

/-- Every call keeps the invariant. -/
theorem step_inv (K : i2c_status_t) (s : State) (c : Call) (hs : Inv s) : Inv (step K s c) := by
  cases c with
  | gpio_init v f sda scl o =>
    simp only [step]
    by_cases hv : v = 0 ∨ v = 1
    · rw [gpio_init_valid K s v f sda scl o hv]
      exact gpio_init_result_inv s v f sda scl o hv hs
    · rw [gpio_init_rejected K s v f sda scl o hv]
      exact hs
  | read v addr dst len nostop t o =>
    intro h
    simp only [step]
    rw [(read_contexts K s v addr dst len nostop t o).1,
      (read_contexts K s v addr dst len nostop t o).2]
    exact hs h
  | write v addr src len nostop t o =>
    intro h
    simp only [step]
    rw [(write_contexts K s v addr src len nostop t o).1,
      (write_contexts K s v addr src len nostop t o).2]
    exact hs h

/-- Every sequence of calls keeps the invariant. -/
theorem run_inv (K : i2c_status_t) (cs : List Call) (s : State) (hs : Inv s) :
    Inv (run K s cs) := by
  induction cs generalizing s with
  | nil => exact hs
  | cons c cs ih =>
    simp only [run, List.foldl_cons]
    exact ih (step K s c) (step_inv K s c hs)

/-- Under the invariant, every bus handle that a call passes to the driver is
live when the call starts. -/
theorem step_bus_handles_live (K : i2c_status_t) (s : State) (c : Call) (hs : Inv s) (b : Nat)
    (hb : b ∈ bus_handles_passed ((step K s c).trace.drop s.trace.length)) : b ∈ s.buses := by
  cases c with
  | gpio_init v f sda scl o =>
    simp only [step] at hb
    by_cases hv : v = 0 ∨ v = 1
    · rw [gpio_init_valid K s v f sda scl o hv] at hb
      simp only [gpio_init_result, List.append_assoc, List.drop_left] at hb
      cases hi : (s.i2c_contexts.get v).initialized
      · simp [hi, bus_handles_passed] at hb
      · simp only [hi, if_true, List.singleton_append, bus_handles_passed,
          List.mem_singleton] at hb
        rw [hb]
        exact inv_mem s hs v hv hi
    · rw [gpio_init_rejected K s v f sda scl o hv] at hb
      simp [bus_handles_passed] at hb
  | read v addr dst len nostop t o =>
    simp only [step] at hb
    by_cases hc : v < 0 ∨ v ≥ 2 ∨ (s.i2c_contexts.get v).initialized = false
    · rw [read_rejected K s v addr dst len nostop t o hc] at hb
      simp [bus_handles_passed] at hb
    · have hu : v = 0 ∨ v = 1 := by omega
      have hi : (s.i2c_contexts.get v).initialized = true := by
        cases hq : (s.i2c_contexts.get v).initialized
        · exact absurd (Or.inr (Or.inr hq)) hc
        · rfl
      by_cases ha : o.add_err = ESP_OK
      · rw [read_added K s v addr dst len nostop t o hu hi ha] at hb
        simp only [List.drop_left, bus_handles_passed, List.mem_singleton] at hb
        rw [hb]
        exact inv_mem s hs v hu hi
      · rw [read_add_failed K s v addr dst len nostop t o hu hi ha] at hb
        simp only [List.drop_left, bus_handles_passed, List.mem_singleton] at hb
        rw [hb]
        exact inv_mem s hs v hu hi
  | write v addr src len nostop t o =>
    simp only [step] at hb
    by_cases hc : v < 0 ∨ v ≥ 2 ∨ (s.i2c_contexts.get v).initialized = false
    · rw [write_rejected K s v addr src len nostop t o hc] at hb
      simp [bus_handles_passed] at hb
    · have hu : v = 0 ∨ v = 1 := by omega
      have hi : (s.i2c_contexts.get v).initialized = true := by
        cases hq : (s.i2c_contexts.get v).initialized
        · exact absurd (Or.inr (Or.inr hq)) hc
        · rfl
      by_cases ha : o.add_err = ESP_OK
      · rw [write_added K s v addr src len nostop t o hu hi ha] at hb
        simp only [List.drop_left, bus_handles_passed, List.mem_singleton] at hb
        rw [hb]
        exact inv_mem s hs v hu hi
      · rw [write_add_failed K s v addr src len nostop t o hu hi ha] at hb
        simp only [List.drop_left, bus_handles_passed, List.mem_singleton] at hb
        rw [hb]
        exact inv_mem s hs v hu hi

/-- C10. Reachable-state invariant of the two-slot context table: in the state
reached from the all-zero table by any sequence of calls with any driver
outcomes, (1) whenever a unit's initialized flag is true its stored bus handle
is live, that is, it came from a successful bus creation that no deletion has
ended; (2) an I2C_gpio_init on unit 0 or 1 whose bus creation fails leaves
that unit uninitialized; (3) every bus handle that the next call, of any of
the three functions, passes to the driver is live when that call starts. -/
theorem reachable_bus_handles_live (K : i2c_status_t) (cs : List Call) :
    (∀ u : Int, (u = 0 ∨ u = 1) →
      ((run K initial cs).i2c_contexts.get u).initialized = true →
      ((run K initial cs).i2c_contexts.get u).bus_handle ∈ (run K initial cs).buses) ∧
    (∀ (u : Int) (f : Nat) (sda scl : Int) (o : BusOutcome), (u = 0 ∨ u = 1) →
      o.err ≠ ESP_OK →
      ((I2C_gpio_init K (run K initial cs) u f sda scl o).2.i2c_contexts.get u).initialized =
        false) ∧
    (∀ (c : Call) (b : Nat),
      b ∈ bus_handles_passed
        ((step K (run K initial cs) c).trace.drop (run K initial cs).trace.length) →
      b ∈ (run K initial cs).buses) := by
  have hs : Inv (run K initial cs) := run_inv K cs initial inv_initial
  refine ⟨fun u hu hi => inv_mem _ hs u hu hi, fun u f sda scl o hu he => ?_,
    fun c b hb => step_bus_handles_live K _ c hs b hb⟩
  rw [gpio_init_valid K _ u f sda scl o hu]
  simp only [gpio_init_result, he, if_false]
  rw [Contexts.get_set_same]

/-- After unit 0 is initialised (bus handle 11) and the calls of demo_calls
are made, the handle of unit 0 is live, a failing re-initialisation of unit 0
leaves it uninitialized, and the handle a write on unit 1 passes is live. -/
theorem reachable_bus_handles_live_witness :
    ((run picoruby_status initial
        (Call.gpio_init 0 100000 21 22 ⟨0, 11, false⟩ :: demo_calls)).i2c_contexts.get
          0).bus_handle ∈
      (run picoruby_status initial
        (Call.gpio_init 0 100000 21 22 ⟨0, 11, false⟩ :: demo_calls)).buses ∧
    ((I2C_gpio_init picoruby_status
        (run picoruby_status initial
          (Call.gpio_init 0 100000 21 22 ⟨0, 11, false⟩ :: demo_calls))
        0 400000 21 22 ⟨263, 14, true⟩).2.i2c_contexts.get 0).initialized = false ∧
    (12 : Nat) ∈ (run picoruby_status initial
        (Call.gpio_init 0 100000 21 22 ⟨0, 11, false⟩ :: demo_calls)).buses :=
  have h := reachable_bus_handles_live picoruby_status
    (Call.gpio_init 0 100000 21 22 ⟨0, 11, false⟩ :: demo_calls)
  ⟨h.1 0 (Or.inl rfl) (by decide),
   h.2.1 0 400000 21 22 ⟨263, 14, true⟩ (Or.inl rfl) (by decide),
   h.2.2 (Call.write 1 60 4096 2 false 500 ⟨0, 8, 0⟩) 12 (by decide)⟩

end I2C
